import Mathlib

/-!
# powerkeyd

A shallow embedding of `src/powerkeyd.c` and the properties of its key timing
state machine, brightness oracle, device matcher and exit status.

Conventions of the embedding.

* C strings and byte streams are `List Char`, one `Char` per byte.
* `long long` and `int` values are `Int`.  The only arithmetic on them is
  `tv_sec * 1000 + tv_nsec / 1000000` and the difference of two such readings;
  `CLOCK_MONOTONIC` counts from boot, so both stay far inside the 64-bit range
  and no wrap-around is modelled.
* `double` values are the rationals that binary64 can represent; every
  floating-point operation rounds its exact result with `binary64`
  (round to nearest, ties to even, evaluation in double precision).  The
  quantities that occur are bounded by `2 ^ 63`, so overflow to infinity is
  not modelled.
* What the operating system answers (device nodes, reads of the event device,
  the clock, the brightness pipe, child processes) is an explicit argument.
* Calls with an externally visible effect are recorded, in program order, in a
  `List Effect`.
-/

namespace Powerkeyd

/-! ## binary64 arithmetic -/

/-- Round a rational to the nearest integer, ties to the even neighbour. -/
def rne (q : ℚ) : ℤ :=
  if q - ⌊q⌋ < 1 / 2 then ⌊q⌋
  else if 1 / 2 < q - ⌊q⌋ then ⌊q⌋ + 1
  else if ⌊q⌋ % 2 = 0 then ⌊q⌋ else ⌊q⌋ + 1

/-- Binade exponent of `q` in binary64: `⌊log₂ |q|⌋`, not below the exponent
`-1022` of the subnormal range. -/
def expo (q : ℚ) : ℤ := max (Int.log 2 |q|) (-1022)

/-- Rounding of an exact value to binary64 (53-bit significand): the nearest
multiple of the unit in the last place of the binade of `q`. -/
def binary64 (q : ℚ) : ℚ :=
  (rne (q / 2 ^ (expo q - 52)) : ℚ) * 2 ^ (expo q - 52)

/-- Conversion `(double)n` of an integer. -/
def double_of_int (n : Int) : ℚ := binary64 n

/-- Division of two doubles. -/
def double_div (a b : ℚ) : ℚ := binary64 (a / b)

/-! ## Constants of the system headers -/

/-- Constant `EV_KEY` of `linux/input-event-codes.h`. -/
def EV_KEY : Nat := 1
/-- Constant `KEY_POWER` of `linux/input-event-codes.h`. -/
def KEY_POWER : Nat := 116
/-- Constant `KEY_SLEEP` of `linux/input-event-codes.h`. -/
def KEY_SLEEP : Nat := 142
/-- Constant `KEY_WAKEUP` of `linux/input-event-codes.h`. -/
def KEY_WAKEUP : Nat := 143
/-- Constant `EAGAIN` of `errno.h`. -/
def EAGAIN : Int := 11
/-- Constant `LIBEVDEV_READ_STATUS_SUCCESS` of `libevdev.h`. -/
def LIBEVDEV_READ_STATUS_SUCCESS : Int := 0
/-- Constant `LIBEVDEV_READ_STATUS_SYNC` of `libevdev.h`. -/
def LIBEVDEV_READ_STATUS_SYNC : Int := 1
/-- Constant `LONG_MAX` of an LP64 platform. -/
def LONG_MAX : Int := 2 ^ 63 - 1
/-- Constant `LONG_MIN` of an LP64 platform. -/
def LONG_MIN : Int := -(2 ^ 63)

/-! ## Data -/

/-- The `struct timespec` as filled in by `clock_gettime(CLOCK_MONOTONIC, _)`. -/
structure timespec where
  tv_sec : Nat
  tv_nsec : Nat
  deriving DecidableEq, Repr

/-- The `struct input_event` without its time stamp, which the daemon never reads. -/
structure input_event where
  type : Nat
  code : Nat
  value : Int
  deriving DecidableEq, Repr

/-- What `fork` and `waitpid` give the daemon for one `systemctl start`. -/
structure Proc where
  fork : Int
  waitpid : Int
  status : Nat
  deriving DecidableEq, Repr

/-- What the system answers for one device node `/dev/input/event<i>`. -/
structure Candidate where
  /-- Result of `open(path, O_RDONLY | O_CLOEXEC)`. -/
  open_rdonly : Int
  /-- Result of `libevdev_new_from_fd`. -/
  new_from_fd : Int
  /-- Result of `libevdev_get_name`, `none` for a null pointer. -/
  name : Option (List Char)
  /-- Result of `libevdev_has_event_code dev type code`. -/
  has_event_code : Nat → Nat → Bool
  /-- Result of `open(path, O_RDWR | O_CLOEXEC)`. -/
  open_rdwr : Int
  /-- Result of `ioctl(fd, EVIOCGRAB, 1)`. -/
  eviocgrab : Int

/-- What the system answers during one iteration of the daemon loop. -/
structure Round where
  /-- Value of `g_stop` at the loop test. -/
  g_stop : Bool
  /-- Status of `libevdev_next_event` in normal mode. -/
  rc : Int
  /-- Event stored by that read. -/
  ev : input_event
  /-- Statuses and events of the following reads in sync mode. -/
  sync : List (Int × input_event)
  /-- Reading of `CLOCK_MONOTONIC`. -/
  clock : timespec
  /-- Output of the brightness pipe, `none` when `popen` fails. -/
  backlight : Option (List Char)
  /-- Child process of the first `systemctl_start` call. -/
  proc1 : Proc
  /-- Child process of the second `systemctl_start` call. -/
  proc2 : Proc

/-- Calls of the daemon loop with an externally visible effect. -/
inductive Effect where
  | poll (timeout : Int)
  | stderr_read_error (rc : Int)
  | is_brightness_zero (ret : Bool)
  | systemctl_start (unit : String) (ret : Int)
  deriving DecidableEq, Repr

/-- State and effects after one pass through the loop body. -/
structure Iter where
  pressed_at_ms : Int
  trace : List Effect
  /-- The body left the loop with `break`. -/
  brk : Bool
  deriving DecidableEq, Repr

/-! ## The functions of `powerkeyd.c` -/

/-- Source `monotonic_ms`, lines 28-32. -/
def monotonic_ms (ts : timespec) : Int :=
  (ts.tv_sec : Int) * 1000 + (ts.tv_nsec : Int) / 1000000

/-- Source `systemctl_start`, lines 34-44, in the parent process: the child
(`pid == 0`) replaces itself with `systemctl` or exits with 127. -/
def systemctl_start (p : Proc) : Int :=
  if p.fork < 0 then -1
  else if p.waitpid < 0 then -1
  else if p.status % 128 = 0 ∧ p.status / 256 % 256 = 0 then 0 else -1

/-- Source `is_power_key_code`, lines 46-48. -/
def is_power_key_code (code : Nat) : Bool :=
  code == KEY_POWER || code == KEY_SLEEP || code == KEY_WAKEUP

/-- The C library `isspace` in the C locale. -/
def isspace (c : Char) : Bool :=
  c.toNat == 32 || (9 ≤ c.toNat && c.toNat ≤ 13)

/-- The C library `isdigit`. -/
def isdigit (c : Char) : Bool :=
  48 ≤ c.toNat && c.toNat ≤ 57

/-- Value of the longest run of decimal digits at the head of the text. -/
def strtol_digits : Nat → List Char → Nat
  | acc, [] => acc
  | acc, c :: cs => if isdigit c then strtol_digits (acc * 10 + (c.toNat - 48)) cs else acc

/-- The call `strtol(s, NULL, 10)`: white space, an optional sign, then digits; `0`
when no digit follows, clamped to the range of `long`. -/
def strtol (s : List Char) : Int :=
  match s.dropWhile isspace with
  | [] => 0
  | c :: cs =>
    if c = '-' then max LONG_MIN (-(strtol_digits 0 cs : Int))
    else if c = '+' then min LONG_MAX (strtol_digits 0 cs : Int)
    else min LONG_MAX (strtol_digits 0 (c :: cs) : Int)

/-- Bytes stored by `fgets` when at most `n` may be read: up to and including
the first newline. -/
def fgets_line : Nat → List Char → List Char
  | 0, _ => []
  | _, [] => []
  | n + 1, c :: cs => if c.toNat = 10 then [c] else c :: fgets_line n cs

/-- The call `fgets(buf, size, fp)` on a stream with the given pending bytes: `none`
(a null pointer) at end of file, else the buffer content. -/
def fgets (size : Nat) (stream : List Char) : Option (List Char) :=
  if stream = [] then none else some (fgets_line (size - 1) stream)

/-- Source `is_brightness_zero`, lines 50-62. -/
def is_brightness_zero (pipe : Option (List Char)) : Bool :=
  match pipe with
  | none => false
  | some stream =>
    match fgets 64 stream with
    | none => false
    | some buf => decide (strtol buf = 0)

/-- The call `strstr(haystack, needle)`: the tail of `haystack` that starts at the first
occurrence of `needle`, `none` for a null pointer. -/
def strstr : List Char → List Char → Option (List Char)
  | [], needle => if needle = [] then some [] else none
  | c :: cs, needle =>
    if needle.isPrefixOf (c :: cs) then some (c :: cs) else strstr cs needle

/-- The `for` loop of `open_matching_input`, lines 65-104, from index `i` with
`n` candidates left. -/
def open_matching_input_from (devs : Nat → Candidate) (desired_name_substr : Option (List Char))
    (try_grab : Bool) : Nat → Nat → Int
  | 0, _ => -1
  | n + 1, i =>
    let fd := (devs i).open_rdonly
    if fd < 0 then open_matching_input_from devs desired_name_substr try_grab n (i + 1)
    else if (devs i).new_from_fd < 0 then
      open_matching_input_from devs desired_name_substr try_grab n (i + 1)
    else
      let name_ok : Bool :=
        match desired_name_substr with
        | none => true
        | some d =>
          if d ≠ [] then
            match (devs i).name with
            | none => false
            | some nm => (strstr nm d).isSome
          else true
      let has_power : Bool :=
        (devs i).has_event_code EV_KEY KEY_POWER ||
        (devs i).has_event_code EV_KEY KEY_SLEEP ||
        (devs i).has_event_code EV_KEY KEY_WAKEUP
      if name_ok && has_power then
        if try_grab then
          let fd := (devs i).open_rdwr
          let _grabbed := if 0 ≤ fd then some (devs i).eviocgrab else none
          fd
        else fd
      else open_matching_input_from devs desired_name_substr try_grab n (i + 1)

/-- Source `open_matching_input`, lines 64-106. -/
def open_matching_input (devs : Nat → Candidate) (desired_name_substr : Option (List Char))
    (try_grab : Bool) : Int :=
  open_matching_input_from devs desired_name_substr try_grab 64 0

/-- The constant `short_max_s = 0.7` of `main`. -/
def short_max_s : ℚ := binary64 (7 / 10)

/-- The constant `long_min_s = 1.5` of `main`. -/
def long_min_s : ℚ := binary64 (3 / 2)

/-- The inner loop of lines 155-156: read in sync mode while the status is
`LIBEVDEV_READ_STATUS_SYNC`; the result is the status that ended the loop
(`-EAGAIN` once the backlog is empty). -/
def drain_sync : List (Int × input_event) → Int
  | [] => -EAGAIN
  | (rc, _) :: rest => if rc = LIBEVDEV_READ_STATUS_SYNC then drain_sync rest else rc

/-- Lines 170-181 of `main`: classify the duration and start the units. -/
def dispatch (dt_ms : Int) (r : Round) : List Effect :=
  let dt_s := double_div (double_of_int dt_ms) (binary64 1000)
  if long_min_s ≤ dt_s then
    [Effect.systemctl_start "os-wake.service" (systemctl_start r.proc1),
     Effect.systemctl_start "os-wlogout.service" (systemctl_start r.proc2)]
  else if dt_s ≤ short_max_s then
    if is_brightness_zero r.backlight then
      [Effect.is_brightness_zero true,
       Effect.systemctl_start "os-wake.service" (systemctl_start r.proc1)]
    else
      [Effect.is_brightness_zero false,
       Effect.systemctl_start "os-screenoff.service" (systemctl_start r.proc1)]
  else []

/-- The body of the `while` loop of `main`, lines 142-182. -/
def loop_body (r : Round) (pressed_at_ms : Int) : Iter :=
  if r.rc = -EAGAIN then ⟨pressed_at_ms, [Effect.poll 250], false⟩
  else if r.rc < 0 then ⟨pressed_at_ms, [Effect.stderr_read_error r.rc], true⟩
  else if r.rc = LIBEVDEV_READ_STATUS_SYNC then
    let _rc := drain_sync r.sync
    ⟨pressed_at_ms, [], false⟩
  else if r.ev.type ≠ EV_KEY then ⟨pressed_at_ms, [], false⟩
  else if !is_power_key_code r.ev.code then ⟨pressed_at_ms, [], false⟩
  else if r.ev.value = 1 then ⟨monotonic_ms r.clock, [], false⟩
  else if r.ev.value = 0 then
    if pressed_at_ms < 0 then ⟨pressed_at_ms, [], false⟩
    else
      let dt_ms := monotonic_ms r.clock - pressed_at_ms
      ⟨-1, dispatch dt_ms r, false⟩
  else ⟨pressed_at_ms, [], false⟩

/-- The `while (!g_stop)` loop of `main`, lines 141-183, over the rounds the
system provides: the effects once the loop has ended, `none` while the daemon
is still running after the last round. -/
def main_loop : List Round → Int → Option (List Effect)
  | [], _ => none
  | r :: rs, pressed_at_ms =>
    if r.g_stop then some []
    else if (loop_body r pressed_at_ms).brk then some (loop_body r pressed_at_ms).trace
    else
      (main_loop rs (loop_body r pressed_at_ms).pressed_at_ms).map
        (fun t => (loop_body r pressed_at_ms).trace ++ t)

/-- Source `main`, lines 108-188: the exit status and the effects of the loop.
`DEFAULT_MATCH` and `DEFAULT_GRAB` come from `config.h`; `attach` is the result
of `libevdev_new_from_fd` on the descriptor found. -/
def main (DEFAULT_MATCH : List Char) (DEFAULT_GRAB : Bool) (argv : List (List Char))
    (devs : Nat → Candidate) (attach : Int) (rounds : List Round) : Option (Int × List Effect) :=
  let match_name := if 2 ≤ argv.length then argv.getD 1 DEFAULT_MATCH else DEFAULT_MATCH
  let grab :=
    if 3 ≤ argv.length ∧ argv.getD 2 [] = ['-', '-', 'n', 'o', 'g', 'r', 'a', 'b'] then false
    else DEFAULT_GRAB
  let fd := open_matching_input devs (some match_name) grab
  if fd < 0 then some (1, [])
  else if attach < 0 then some (1, [])
  else (main_loop rounds (-1)).map (fun t => (0, t))

/-! ## Vocabulary of the specification -/

/-- The read of round `r` delivered a power-class key event with this value
(1 for PRESSED, 0 for RELEASED). -/
def power_key_event (r : Round) (value : Int) : Prop :=
  r.rc = LIBEVDEV_READ_STATUS_SUCCESS ∧ r.ev.type = EV_KEY ∧
    is_power_key_code r.ev.code = true ∧ r.ev.value = value

instance (r : Round) (value : Int) : Decidable (power_key_event r value) := by
  unfold power_key_event; infer_instance

/-- A candidate qualifies, in the words of the specification: it can be opened
and probed, the name filter is absent or empty or occurs in the device name,
and the device declares one of the three power-class keys. -/
def qualifies (name_substr : Option (List Char)) (c : Candidate) : Prop :=
  0 ≤ c.open_rdonly ∧ 0 ≤ c.new_from_fd ∧
  (match name_substr with
    | none => True
    | some d => d = [] ∨
      match c.name with
      | none => False
      | some nm => d <:+: nm) ∧
  (c.has_event_code EV_KEY KEY_POWER = true ∨ c.has_event_code EV_KEY KEY_SLEEP = true ∨
    c.has_event_code EV_KEY KEY_WAKEUP = true)

instance (name_substr : Option (List Char)) (c : Candidate) :
    Decidable (qualifies name_substr c) := by
  unfold qualifies
  cases name_substr <;> cases c.name <;> infer_instance

/-- The descriptor `open_matching_input` returns for a candidate it accepts:
the read-only one, or with `try_grab` the result of the read-write reopen. -/
def returned_descriptor (c : Candidate) (try_grab : Bool) : Int :=
  if try_grab then c.open_rdwr else c.open_rdonly

/-! ## Scenarios -/

/-- A round in which the read delivers a key event with this code and value,
the clock shows `clock` and the brightness pipe yields `backlight`; both
`systemctl` children exit with status 0. -/
def key_round (code : Nat) (value : Int) (clock : timespec)
    (backlight : Option (List Char)) : Round :=
  { g_stop := false
    rc := LIBEVDEV_READ_STATUS_SUCCESS
    ev := { type := EV_KEY, code := code, value := value }
    sync := []
    clock := clock
    backlight := backlight
    proc1 := { fork := 100, waitpid := 100, status := 0 }
    proc2 := { fork := 101, waitpid := 101, status := 0 } }

/-- The brightness pipe of a lit screen: the line `255`. -/
def backlight_255 : Option (List Char) := some ['2', '5', '5', Char.ofNat 10]

/-- A brightness pipe whose first line is not a number: the text `n/a`. -/
def backlight_not_a_number : Option (List Char) := some ['n', '/', 'a', Char.ofNat 10]

/-- A device node that opens as descriptor 3, probes, is called
`Power Button` and declares `KEY_POWER`; the read-write reopen gives
`open_rdwr` and the grab `eviocgrab`. -/
def power_button (open_rdwr eviocgrab : Int) : Candidate :=
  { open_rdonly := 3
    new_from_fd := 0
    name := some ['P', 'o', 'w', 'e', 'r', ' ', 'B', 'u', 't', 't', 'o', 'n']
    has_event_code := fun t c => t == EV_KEY && c == KEY_POWER
    open_rdwr := open_rdwr
    eviocgrab := eviocgrab }

/-- A device node that does not exist: `open` fails. -/
def no_device : Candidate :=
  { open_rdonly := -1
    new_from_fd := -1
    name := none
    has_event_code := fun _ _ => false
    open_rdwr := -1
    eviocgrab := -1 }

/-- A system whose only input device is a power button at `event0`. -/
def one_button (open_rdwr eviocgrab : Int) : Nat → Candidate :=
  fun i => if i = 0 then power_button open_rdwr eviocgrab else no_device

/-- A round in which the read fails with `-ENODEV` (the device is gone). -/
def read_error_round : Round :=
  { key_round 0 0 ⟨7, 0⟩ none with rc := -19 }

/-- The filter `Power`. -/
def filter_Power : Option (List Char) := some ['P', 'o', 'w', 'e', 'r']

/-- A system with five device nodes: `event0` cannot be opened, `event1`
opens but does not probe, `event2` is a keyboard without power keys, `event3`
is called `Power Button` and declares `KEY_POWER`, `event5` is called
`gpio Power` and declares `KEY_SLEEP`. -/
def five_nodes : Nat → Candidate := fun i =>
  if i = 1 then { no_device with open_rdonly := 3 }
  else if i = 2 then
    { open_rdonly := 3
      new_from_fd := 0
      name := some ['P', 'o', 'w', 'e', 'r', ' ', 'k', 'b', 'd']
      has_event_code := fun t c => t == EV_KEY && c == 30
      open_rdwr := 3
      eviocgrab := 0 }
  else if i = 3 then { power_button 13 (-1) with open_rdonly := 12 }
  else if i = 5 then
    { open_rdonly := 14
      new_from_fd := 0
      name := some ['g', 'p', 'i', 'o', ' ', 'P', 'o', 'w', 'e', 'r']
      has_event_code := fun t c => t == EV_KEY && c == KEY_SLEEP
      open_rdwr := 15
      eviocgrab := 0 }
  else no_device

/-- The system `five_nodes` in which the read-write reopen of `event3` fails. -/
def five_nodes_reopen_fails : Nat → Candidate := fun i =>
  if i = 3 then { five_nodes 3 with open_rdwr := -1 } else five_nodes i

/-! ## Rounding lemmas -/

theorem rne_intCast (m : ℤ) : rne (m : ℚ) = m := by
  simp [rne]

theorem rne_mono {a b : ℚ} (h : a ≤ b) : rne a ≤ rne b := by
  have hf : ⌊a⌋ ≤ ⌊b⌋ := Int.floor_mono h
  have ha0 : (⌊a⌋ : ℚ) ≤ a := Int.floor_le a
  have ha1 : a < ⌊a⌋ + 1 := Int.lt_floor_add_one a
  have hb0 : (⌊b⌋ : ℚ) ≤ b := Int.floor_le b
  have hb1 : b < ⌊b⌋ + 1 := Int.lt_floor_add_one b
  rcases hf.lt_or_eq with hlt | heq
  · have h1 : rne a ≤ ⌊a⌋ + 1 := by
      unfold rne; split_ifs <;> omega
    have h2 : ⌊b⌋ ≤ rne b := by
      unfold rne; split_ifs <;> omega
    omega
  · unfold rne
    rw [heq] at *
    split_ifs <;> first | omega | (exfalso; linarith)


theorem rne_le_of_le_int {q : ℚ} {n : ℤ} (h : q ≤ n) : rne q ≤ n := by
  have := rne_mono h
  rwa [rne_intCast] at this

theorem le_rne_of_int_le {q : ℚ} {n : ℤ} (h : (n : ℚ) ≤ q) : n ≤ rne q := by
  have := rne_mono h
  rwa [rne_intCast] at this

theorem binary64_eq (q : ℚ) :
    binary64 q = (rne (q / 2 ^ (expo q - 52)) : ℚ) * 2 ^ (expo q - 52) := rfl

theorem ulp_pos (e : ℤ) : (0 : ℚ) < 2 ^ e := zpow_pos (by norm_num) e

theorem log_eq_of_bounds {q : ℚ} {e : ℤ} (h1 : (2 : ℚ) ^ e ≤ q) (h2 : q < 2 ^ (e + 1)) :
    Int.log 2 q = e := by
  have hq : 0 < q := lt_of_lt_of_le (ulp_pos e) h1
  have a : e ≤ Int.log 2 q := (Int.zpow_le_iff_le_log (by norm_num) hq).1 (by exact_mod_cast h1)
  have b : Int.log 2 q < e + 1 := (Int.lt_zpow_iff_log_lt (by norm_num) hq).1 (by exact_mod_cast h2)
  omega

theorem binary64_exact (m e : ℤ) (hm : 2 ^ 52 ≤ m) (hm' : m < 2 ^ 53) (he : -1022 ≤ e) :
    binary64 ((m : ℚ) * 2 ^ (e - 52)) = (m : ℚ) * 2 ^ (e - 52) := by
  have hmq : (2 : ℚ) ^ (52 : ℤ) ≤ (m : ℚ) := by
    have e : (2 : ℚ) ^ (52 : ℤ) = ((2 ^ 52 : ℤ) : ℚ) := by norm_num
    rw [e]; exact_mod_cast hm
  have hmq' : (m : ℚ) < (2 : ℚ) ^ (53 : ℤ) := by
    have e : (2 : ℚ) ^ (53 : ℤ) = ((2 ^ 53 : ℤ) : ℚ) := by norm_num
    rw [e]; exact_mod_cast hm'
  have hu := ulp_pos (e - 52)
  have hpos : (0 : ℚ) < (m : ℚ) * 2 ^ (e - 52) :=
    mul_pos (lt_of_lt_of_le (ulp_pos 52) hmq) hu
  have h1 : (2 : ℚ) ^ e ≤ (m : ℚ) * 2 ^ (e - 52) := by
    have : (2 : ℚ) ^ e = 2 ^ (52 : ℤ) * 2 ^ (e - 52) := by
      rw [← zpow_add₀ (by norm_num : (2 : ℚ) ≠ 0)]; congr 1; ring
    rw [this]
    exact mul_le_mul_of_nonneg_right hmq hu.le
  have h2 : (m : ℚ) * 2 ^ (e - 52) < 2 ^ (e + 1) := by
    have : (2 : ℚ) ^ (e + 1) = 2 ^ (53 : ℤ) * 2 ^ (e - 52) := by
      rw [← zpow_add₀ (by norm_num : (2 : ℚ) ≠ 0)]; congr 1; ring
    rw [this]
    exact mul_lt_mul_of_pos_right hmq' hu
  have hlog := log_eq_of_bounds h1 h2
  have hexpo : expo ((m : ℚ) * 2 ^ (e - 52)) = e := by
    unfold expo
    rw [abs_of_pos hpos, hlog]
    exact max_eq_left he
  rw [binary64_eq, hexpo, mul_div_assoc, div_self hu.ne', mul_one, rne_intCast]

theorem binary64_nonpos {x : ℚ} (h : x ≤ 0) : binary64 x ≤ 0 := by
  rw [binary64_eq]
  have hu := ulp_pos (expo x - 52)
  have : rne (x / 2 ^ (expo x - 52)) ≤ 0 :=
    rne_le_of_le_int (by simpa using div_nonpos_of_nonpos_of_nonneg h hu.le)
  exact mul_nonpos_of_nonpos_of_nonneg (by exact_mod_cast this) hu.le

theorem binary64_nonneg {x : ℚ} (h : 0 ≤ x) : 0 ≤ binary64 x := by
  rw [binary64_eq]
  have hu := ulp_pos (expo x - 52)
  have : 0 ≤ rne (x / 2 ^ (expo x - 52)) :=
    le_rne_of_int_le (by simpa using div_nonneg h hu.le)
  exact mul_nonneg (by exact_mod_cast this) hu.le

theorem expo_mono {x y : ℚ} (hx : 0 < x) (h : x ≤ y) : expo x ≤ expo y := by
  unfold expo
  rw [abs_of_pos hx, abs_of_pos (lt_of_lt_of_le hx h)]
  exact max_le_max (Int.log_mono_right hx h) le_rfl

theorem binary64_mono_pos {x y : ℚ} (hx : 0 < x) (h : x ≤ y) : binary64 x ≤ binary64 y := by
  have hy : 0 < y := lt_of_lt_of_le hx h
  rcases (expo_mono hx h).lt_or_eq with hlt | heq
  · -- different binades: the power of two between them separates the results
    have hux := ulp_pos (expo x - 52)
    have huy := ulp_pos (expo y - 52)
    have hey : expo y = Int.log 2 y := by
      have h1022 : -1022 ≤ expo x := le_max_right _ _
      unfold expo at hlt ⊢
      rw [abs_of_pos hy] at hlt ⊢
      rcases le_total (Int.log 2 y) (-1022) with hc | hc
      · rw [max_eq_right hc] at hlt; omega
      · exact max_eq_left hc
    have hxlt : x < 2 ^ (expo x + 1) := by
      have h1 := Int.lt_zpow_succ_log_self (R := ℚ) (b := 2) (by norm_num) x
      have h2 : Int.log 2 x + 1 ≤ expo x + 1 := by
        unfold expo; rw [abs_of_pos hx]; have := le_max_left (Int.log 2 x) (-1022); omega
      calc x < (2 : ℚ) ^ (Int.log 2 x + 1) := by exact_mod_cast h1
        _ ≤ 2 ^ (expo x + 1) := zpow_le_zpow_right₀ (by norm_num) h2
    have hyge : (2 : ℚ) ^ (expo y) ≤ y := by
      rw [hey]
      exact_mod_cast Int.zpow_log_le_self (R := ℚ) (b := 2) (by norm_num) hy
    have hmid : (2 : ℚ) ^ (expo x + 1) ≤ 2 ^ (expo y) :=
      zpow_le_zpow_right₀ (by norm_num) (by omega)
    have hbx : binary64 x ≤ 2 ^ (expo x + 1) := by
      rw [binary64_eq]
      have e1 : (2 : ℚ) ^ (expo x + 1) = ((2 ^ 53 : ℤ) : ℚ) * 2 ^ (expo x - 52) := by
        have : (2 : ℚ) ^ (expo x + 1) = 2 ^ (53 : ℤ) * 2 ^ (expo x - 52) := by
          rw [← zpow_add₀ (by norm_num : (2 : ℚ) ≠ 0)]; congr 1; ring
        rw [this]; norm_num
      rw [e1]
      refine mul_le_mul_of_nonneg_right ?_ hux.le
      have : rne (x / 2 ^ (expo x - 52)) ≤ (2 ^ 53 : ℤ) := by
        apply rne_le_of_le_int
        rw [div_le_iff₀ hux, ← e1]
        exact hxlt.le
      exact_mod_cast this
    have hby : (2 : ℚ) ^ (expo y) ≤ binary64 y := by
      rw [binary64_eq]
      have e1 : (2 : ℚ) ^ (expo y) = ((2 ^ 52 : ℤ) : ℚ) * 2 ^ (expo y - 52) := by
        have : (2 : ℚ) ^ (expo y) = 2 ^ (52 : ℤ) * 2 ^ (expo y - 52) := by
          rw [← zpow_add₀ (by norm_num : (2 : ℚ) ≠ 0)]; congr 1; ring
        rw [this]; norm_num
      rw [e1]
      refine mul_le_mul_of_nonneg_right ?_ huy.le
      have : (2 ^ 52 : ℤ) ≤ rne (y / 2 ^ (expo y - 52)) := by
        apply le_rne_of_int_le
        rw [le_div_iff₀ huy, ← e1]
        exact hyge
      exact_mod_cast this
    exact hbx.trans (hmid.trans hby)
  · rw [binary64_eq, binary64_eq, heq]
    have huy := ulp_pos (expo y - 52)
    refine mul_le_mul_of_nonneg_right ?_ huy.le
    have : rne (x / 2 ^ (expo y - 52)) ≤ rne (y / 2 ^ (expo y - 52)) :=
      rne_mono (div_le_div_of_nonneg_right h huy.le)
    exact_mod_cast this

theorem binary64_mono_of_nonneg {x y : ℚ} (hx : 0 ≤ x) (h : x ≤ y) : binary64 x ≤ binary64 y := by
  rcases hx.lt_or_eq with hpos | h0
  · exact binary64_mono_pos hpos h
  · rw [← h0] at h ⊢
    exact (binary64_nonpos le_rfl).trans (binary64_nonneg h)

theorem binary64_fix (m e : ℤ) {q : ℚ} (hm : 2 ^ 52 ≤ m) (hm' : m < 2 ^ 53) (he : -1022 ≤ e)
    (hq : q = (m : ℚ) * 2 ^ (e - 52)) : binary64 q = q := by
  rw [hq]; exact binary64_exact m e hm hm' he

theorem binary64_1000 : binary64 1000 = 1000 :=
  binary64_fix (1000 * 2 ^ 43) 9 (by norm_num) (by norm_num) (by norm_num) (by norm_num)

theorem binary64_1500 : binary64 1500 = 1500 :=
  binary64_fix (1500 * 2 ^ 42) 10 (by norm_num) (by norm_num) (by norm_num) (by norm_num)

theorem binary64_1499 : binary64 1499 = 1499 :=
  binary64_fix (1499 * 2 ^ 42) 10 (by norm_num) (by norm_num) (by norm_num) (by norm_num)

theorem binary64_700 : binary64 700 = 700 :=
  binary64_fix (700 * 2 ^ 43) 9 (by norm_num) (by norm_num) (by norm_num) (by norm_num)

theorem binary64_701 : binary64 701 = 701 :=
  binary64_fix (701 * 2 ^ 43) 9 (by norm_num) (by norm_num) (by norm_num) (by norm_num)

theorem binary64_three_halves : binary64 (3 / 2) = 3 / 2 :=
  binary64_fix (3 * 2 ^ 51) 0 (by norm_num) (by norm_num) (by norm_num) (by norm_num)

theorem binary64_1535_1024 : binary64 (1535 / 1024) = 1535 / 1024 :=
  binary64_fix (1535 * 2 ^ 42) 0 (by norm_num) (by norm_num) (by norm_num) (by norm_num)

theorem binary64_717_1024 : binary64 (717 / 1024) = 717 / 1024 :=
  binary64_fix (717 * 2 ^ 43) (-1) (by norm_num) (by norm_num) (by norm_num) (by norm_num)

theorem binary64_1435_2048 : binary64 (1435 / 2048) = 1435 / 2048 :=
  binary64_fix (1435 * 2 ^ 42) (-1) (by norm_num) (by norm_num) (by norm_num) (by norm_num)

/-- The seconds value `(double)dt_ms / 1000.0` of line 170. -/
theorem dt_s_nonpos {dt : ℤ} (h : dt ≤ 0) :
    double_div (double_of_int dt) (binary64 1000) ≤ 0 := by
  unfold double_div double_of_int
  rw [binary64_1000]
  have h1 : binary64 (dt : ℚ) ≤ 0 := binary64_nonpos (by exact_mod_cast h)
  exact binary64_nonpos (div_nonpos_of_nonpos_of_nonneg h1 (by norm_num))

theorem dt_s_le {dt n : ℤ} {b : ℚ} (hdt : 0 < dt) (h : dt ≤ n) (hn : binary64 (n : ℚ) = n)
    (hb : (n : ℚ) / 1000 ≤ b) :
    double_div (double_of_int dt) (binary64 1000) ≤ binary64 b := by
  unfold double_div double_of_int
  rw [binary64_1000]
  have h1 : binary64 (dt : ℚ) ≤ n := by
    rw [← hn]
    exact binary64_mono_pos (by exact_mod_cast hdt) (by exact_mod_cast h)
  have h0 : 0 ≤ binary64 (dt : ℚ) := binary64_nonneg (by exact_mod_cast hdt.le)
  refine binary64_mono_of_nonneg (div_nonneg h0 (by norm_num)) ?_
  exact (div_le_div_of_nonneg_right h1 (by norm_num)).trans hb

theorem le_dt_s {dt n : ℤ} {b : ℚ} (hn0 : 0 < n) (h : n ≤ dt) (hn : binary64 (n : ℚ) = n)
    (hb0 : 0 ≤ b) (hb : b ≤ (n : ℚ) / 1000) :
    binary64 b ≤ double_div (double_of_int dt) (binary64 1000) := by
  unfold double_div double_of_int
  rw [binary64_1000]
  have h1 : (n : ℚ) ≤ binary64 (dt : ℚ) := by
    rw [← hn]
    exact binary64_mono_pos (by exact_mod_cast hn0) (by exact_mod_cast h)
  refine binary64_mono_of_nonneg hb0 ?_
  exact hb.trans (div_le_div_of_nonneg_right h1 (by norm_num))

/-- The comparison `dt_s >= long_min_s` of line 172 holds exactly from 1500 ms. -/
theorem long_iff (dt : ℤ) :
    long_min_s ≤ double_div (double_of_int dt) (binary64 1000) ↔ 1500 ≤ dt := by
  constructor
  · intro h
    by_contra hlt
    have hlt' : dt ≤ 1499 := by omega
    have h32 : long_min_s = 3 / 2 := binary64_three_halves
    rw [h32] at h
    rcases le_or_lt dt 0 with h0 | h0
    · have := dt_s_nonpos h0
      linarith
    · have := dt_s_le (b := 1535 / 1024) h0 hlt' (by exact_mod_cast binary64_1499) (by norm_num)
      rw [binary64_1535_1024] at this
      have : (3 : ℚ) / 2 ≤ 1535 / 1024 := h.trans this
      norm_num at this
  · intro h
    have := le_dt_s (b := 3 / 2) (by norm_num) h (by exact_mod_cast binary64_1500)
      (by norm_num) (by norm_num)
    exact this

/-- The comparison `dt_s <= short_max_s` of line 175 holds exactly up to 700 ms. -/
theorem short_iff (dt : ℤ) :
    double_div (double_of_int dt) (binary64 1000) ≤ short_max_s ↔ dt ≤ 700 := by
  constructor
  · intro h
    by_contra hlt
    have hge : (701 : ℤ) ≤ dt := by omega
    have h1 := le_dt_s (b := 1435 / 2048) (by norm_num) hge (by exact_mod_cast binary64_701)
      (by norm_num) (by norm_num)
    rw [binary64_1435_2048] at h1
    have h2 : short_max_s ≤ 717 / 1024 := by
      have := binary64_mono_of_nonneg (x := 7 / 10) (y := 717 / 1024) (by norm_num) (by norm_num)
      rwa [binary64_717_1024] at this
    have : (1435 : ℚ) / 2048 ≤ 717 / 1024 := h1.trans (h.trans h2)
    norm_num at this
  · intro h
    rcases le_or_lt dt 0 with h0 | h0
    · exact (dt_s_nonpos h0).trans (binary64_nonneg (by norm_num))
    · exact dt_s_le (b := 7 / 10) h0 h (by exact_mod_cast binary64_700) (by norm_num)

/-! ## The key timing state machine -/

theorem monotonic_ms_nonneg (ts : timespec) : 0 ≤ monotonic_ms ts := by
  unfold monotonic_ms
  have h1 : (0 : Int) ≤ (ts.tv_sec : Int) * 1000 := by positivity
  have h2 : (0 : Int) ≤ (ts.tv_nsec : Int) / 1000000 := by positivity
  omega

theorem dispatch_long {dt : Int} (r : Round) (h : 1500 ≤ dt) :
    dispatch dt r =
      [Effect.systemctl_start "os-wake.service" (systemctl_start r.proc1),
       Effect.systemctl_start "os-wlogout.service" (systemctl_start r.proc2)] := by
  unfold dispatch
  simp only []
  rw [if_pos ((long_iff dt).2 h)]

theorem dispatch_short {dt : Int} (r : Round) (h : dt ≤ 700) :
    dispatch dt r =
      [Effect.is_brightness_zero (is_brightness_zero r.backlight),
       Effect.systemctl_start
         (if is_brightness_zero r.backlight = true then "os-wake.service"
          else "os-screenoff.service")
         (systemctl_start r.proc1)] := by
  unfold dispatch
  simp only []
  rw [if_neg (fun hl => by have := (long_iff dt).1 hl; omega), if_pos ((short_iff dt).2 h)]
  cases is_brightness_zero r.backlight <;> simp

theorem dispatch_dead_zone {dt : Int} (r : Round) (h1 : 700 < dt) (h2 : dt < 1500) :
    dispatch dt r = [] := by
  unfold dispatch
  simp only []
  rw [if_neg (fun hl => by have := (long_iff dt).1 hl; omega),
    if_neg (fun hs => by have := (short_iff dt).1 hs; omega)]

theorem dispatch_eq_nil_iff (dt : Int) (r : Round) :
    dispatch dt r = [] ↔ 700 < dt ∧ dt < 1500 := by
  constructor
  · intro h
    by_contra hc
    rcases le_or_lt dt 700 with hs | hs
    · rw [dispatch_short r hs] at h; exact List.cons_ne_nil _ _ h
    · have hl : 1500 ≤ dt := by omega
      rw [dispatch_long r hl] at h; exact List.cons_ne_nil _ _ h
  · rintro ⟨h1, h2⟩
    exact dispatch_dead_zone r h1 h2

theorem loop_body_press {r : Round} (h : power_key_event r 1) (s : Int) :
    loop_body r s = ⟨monotonic_ms r.clock, [], false⟩ := by
  obtain ⟨h1, h2, h3, h4⟩ := h
  simp [loop_body, h1, h2, h3, h4, LIBEVDEV_READ_STATUS_SUCCESS, LIBEVDEV_READ_STATUS_SYNC,
    EAGAIN]

theorem loop_body_release {r : Round} (h : power_key_event r 0) {p : Int} (hp : 0 ≤ p) :
    loop_body r p = ⟨-1, dispatch (monotonic_ms r.clock - p) r, false⟩ := by
  obtain ⟨h1, h2, h3, h4⟩ := h
  simp [loop_body, h1, h2, h3, h4, LIBEVDEV_READ_STATUS_SUCCESS, LIBEVDEV_READ_STATUS_SYNC,
    EAGAIN, not_lt.2 hp]

theorem loop_body_release_idle {r : Round} (h : power_key_event r 0) {p : Int} (hp : p < 0) :
    loop_body r p = ⟨p, [], false⟩ := by
  obtain ⟨h1, h2, h3, h4⟩ := h
  simp [loop_body, h1, h2, h3, h4, LIBEVDEV_READ_STATUS_SUCCESS, LIBEVDEV_READ_STATUS_SYNC,
    EAGAIN, hp]

/-- C1 (long press). A PRESSED event of any power-class key code, handled at
clock reading `p` in any state, leaves the state `Pressed(p)`; a RELEASED event
of any power-class key code handled in that state at reading `r` with
`r - p >= 1500` ms (equality included) runs exactly `os-wake.service` and then
`os-wlogout.service`, whatever the first call returns, runs nothing else, does
not query the brightness oracle, and leaves the state Idle (`-1`). -/
theorem C1_long_press (rp rr : Round) (s : Int)
    (hp : power_key_event rp 1) (hr : power_key_event rr 0)
    (hd : 1500 ≤ monotonic_ms rr.clock - monotonic_ms rp.clock) :
    (loop_body rp s).pressed_at_ms = monotonic_ms rp.clock ∧
    loop_body rr (monotonic_ms rp.clock) =
      { pressed_at_ms := -1
        trace :=
          [Effect.systemctl_start "os-wake.service" (systemctl_start rr.proc1),
           Effect.systemctl_start "os-wlogout.service" (systemctl_start rr.proc2)]
        brk := false } := by
  refine ⟨by rw [loop_body_press hp], ?_⟩
  rw [loop_body_release hr (monotonic_ms_nonneg _), dispatch_long rr hd]

/-- Scenario of C1: press at 0 ms, release at 2000 ms. -/
theorem C1_long_press_witness :
    power_key_event (key_round KEY_POWER 1 ⟨0, 0⟩ none) 1 ∧
    power_key_event (key_round KEY_WAKEUP 0 ⟨2, 0⟩ none) 0 ∧
    1500 ≤ monotonic_ms (key_round KEY_WAKEUP 0 ⟨2, 0⟩ none).clock -
      monotonic_ms (key_round KEY_POWER 1 ⟨0, 0⟩ none).clock ∧
    (loop_body (key_round KEY_POWER 1 ⟨0, 0⟩ none) (-1)).pressed_at_ms = 0 ∧
    loop_body (key_round KEY_WAKEUP 0 ⟨2, 0⟩ none) 0 =
      { pressed_at_ms := -1
        trace :=
          [Effect.systemctl_start "os-wake.service" 0,
           Effect.systemctl_start "os-wlogout.service" 0]
        brk := false } :=
  ⟨by decide, by decide, by decide,
    C1_long_press (key_round KEY_POWER 1 ⟨0, 0⟩ none) (key_round KEY_WAKEUP 0 ⟨2, 0⟩ none) (-1)
      (by decide) (by decide) (by decide)⟩

/-- C2 (short press). After a PRESSED event handled at clock reading `p`, a
RELEASED event handled in state `Pressed(p)` at reading `r` with
`r - p <= 700` ms (equality included; no lower bound on `r - p` is needed)
queries the brightness oracle exactly once and then runs exactly one unit:
`os-wake.service` when the oracle answers true, `os-screenoff.service` when it
answers false; `os-wlogout.service` is not run and the state afterwards is
Idle (`-1`). -/
theorem C2_short_press (rp rr : Round) (s : Int)
    (hp : power_key_event rp 1) (hr : power_key_event rr 0)
    (hd : monotonic_ms rr.clock - monotonic_ms rp.clock ≤ 700) :
    (loop_body rp s).pressed_at_ms = monotonic_ms rp.clock ∧
    loop_body rr (monotonic_ms rp.clock) =
      { pressed_at_ms := -1
        trace :=
          [Effect.is_brightness_zero (is_brightness_zero rr.backlight),
           Effect.systemctl_start
             (if is_brightness_zero rr.backlight = true then "os-wake.service"
              else "os-screenoff.service")
             (systemctl_start rr.proc1)]
        brk := false } := by
  refine ⟨by rw [loop_body_press hp], ?_⟩
  rw [loop_body_release hr (monotonic_ms_nonneg _), dispatch_short rr hd]

/-- Scenario of C2: press at 0 ms, release at 400 ms, lit screen. -/
theorem C2_short_press_witness :
    is_brightness_zero backlight_255 = false ∧
    loop_body (key_round KEY_POWER 0 ⟨0, 400000000⟩ backlight_255) 0 =
      { pressed_at_ms := -1
        trace :=
          [Effect.is_brightness_zero false,
           Effect.systemctl_start "os-screenoff.service" 0]
        brk := false } :=
  ⟨by decide,
    (C2_short_press (key_round KEY_POWER 1 ⟨0, 0⟩ none)
      (key_round KEY_POWER 0 ⟨0, 400000000⟩ backlight_255) (-1)
      (by decide) (by decide) (by decide)).2⟩

/-- C3 (dead zone). After a PRESSED event handled at clock reading `p`, a
RELEASED event handled in state `Pressed(p)` at reading `r` always leaves the
state Idle (`-1`); it runs no unit and does not query the brightness oracle
(empty trace) when `700 < r - p < 1500` ms, and only then: at exactly 700 ms
and at exactly 1500 ms the trace is not empty. -/
theorem C3_dead_zone (rp rr : Round) (s : Int)
    (hp : power_key_event rp 1) (hr : power_key_event rr 0) :
    (loop_body rp s).pressed_at_ms = monotonic_ms rp.clock ∧
    (loop_body rr (monotonic_ms rp.clock)).pressed_at_ms = -1 ∧
    (loop_body rr (monotonic_ms rp.clock)).brk = false ∧
    ((loop_body rr (monotonic_ms rp.clock)).trace = [] ↔
      700 < monotonic_ms rr.clock - monotonic_ms rp.clock ∧
        monotonic_ms rr.clock - monotonic_ms rp.clock < 1500) := by
  refine ⟨by rw [loop_body_press hp], ?_⟩
  rw [loop_body_release hr (monotonic_ms_nonneg _)]
  exact ⟨rfl, rfl, dispatch_eq_nil_iff _ rr⟩

/-- Scenario of C3: press at 0 ms, release at 1000 ms; and the two boundary
durations 700 ms and 1500 ms, which are not in the dead zone. -/
theorem C3_dead_zone_witness :
    (loop_body (key_round KEY_SLEEP 0 ⟨1, 0⟩ none) 0).pressed_at_ms = -1 ∧
    (loop_body (key_round KEY_SLEEP 0 ⟨1, 0⟩ none) 0).trace = [] ∧
    (loop_body (key_round KEY_SLEEP 0 ⟨0, 700000000⟩ none) 0).trace ≠ [] ∧
    (loop_body (key_round KEY_SLEEP 0 ⟨1, 500000000⟩ none) 0).trace ≠ [] :=
  ⟨(C3_dead_zone (key_round KEY_SLEEP 1 ⟨0, 0⟩ none) (key_round KEY_SLEEP 0 ⟨1, 0⟩ none) (-1)
      (by decide) (by decide)).2.1,
    (C3_dead_zone (key_round KEY_SLEEP 1 ⟨0, 0⟩ none) (key_round KEY_SLEEP 0 ⟨1, 0⟩ none) (-1)
      (by decide) (by decide)).2.2.2.2 (by decide),
    fun h => absurd
      ((C3_dead_zone (key_round KEY_SLEEP 1 ⟨0, 0⟩ none)
        (key_round KEY_SLEEP 0 ⟨0, 700000000⟩ none) (-1) (by decide) (by decide)).2.2.2.1 h)
      (by decide),
    fun h => absurd
      ((C3_dead_zone (key_round KEY_SLEEP 1 ⟨0, 0⟩ none)
        (key_round KEY_SLEEP 0 ⟨1, 500000000⟩ none) (-1) (by decide) (by decide)).2.2.2.1 h)
      (by decide)⟩

/-- C4 (release without press). A power-class RELEASED event handled in state
Idle (`pressed_at_ms = -1`) runs no unit, does not query the brightness oracle
and leaves the state Idle.  This covers a release that is the first event after
startup (the loop starts in state `-1`, and the daemon goes on as if the round
had not happened) and a release directly after another release handled in
state Idle or `Pressed(p)`. -/
theorem C4_release_without_press (rr : Round) (hr : power_key_event rr 0) :
    loop_body rr (-1) = { pressed_at_ms := -1, trace := [], brk := false } ∧
    (∀ rest : List Round, rr.g_stop = false →
      main_loop (rr :: rest) (-1) = main_loop rest (-1)) ∧
    (∀ (r0 : Round) (s : Int), power_key_event r0 0 → (s = -1 ∨ 0 ≤ s) →
      loop_body rr (loop_body r0 s).pressed_at_ms =
        { pressed_at_ms := -1, trace := [], brk := false }) := by
  have h1 : loop_body rr (-1) = { pressed_at_ms := -1, trace := [], brk := false } :=
    loop_body_release_idle hr (by decide)
  refine ⟨h1, ?_, ?_⟩
  · intro rest hs
    simp [main_loop, hs, h1]
  · intro r0 s h0 hs
    rcases hs with hs | hs
    · subst hs
      rw [loop_body_release_idle h0 (by decide)]
      exact h1
    · rw [loop_body_release h0 hs]
      exact h1

/-- Scenario of C4: a release of the power key as the first event. -/
theorem C4_release_without_press_witness :
    power_key_event (key_round KEY_POWER 0 ⟨5, 0⟩ backlight_255) 0 ∧
    loop_body (key_round KEY_POWER 0 ⟨5, 0⟩ backlight_255) (-1) =
      { pressed_at_ms := -1, trace := [], brk := false } :=
  ⟨by decide,
    (C4_release_without_press (key_round KEY_POWER 0 ⟨5, 0⟩ backlight_255) (by decide)).1⟩

/-- C5 (last press wins). A power-class PRESSED event handled at clock reading
`t` in any state runs nothing and yields state `Pressed(t)`.  Hence after
PRESSED at `t1`, PRESSED at `t2`, RELEASED at `t3` the state is Idle and the
duration handed to the classification of lines 170-181 is `t3 - t2`; when
`t3 - t2 <= 700` ms the cycle is handled as a short press however long ago the
first press was. -/
theorem C5_last_press_wins (r1 r2 r3 : Round) (s : Int)
    (h1 : power_key_event r1 1) (h2 : power_key_event r2 1) (h3 : power_key_event r3 0) :
    loop_body r2 s = { pressed_at_ms := monotonic_ms r2.clock, trace := [], brk := false } ∧
    loop_body r3 (loop_body r2 (loop_body r1 s).pressed_at_ms).pressed_at_ms =
      { pressed_at_ms := -1
        trace := dispatch (monotonic_ms r3.clock - monotonic_ms r2.clock) r3
        brk := false } ∧
    (monotonic_ms r3.clock - monotonic_ms r2.clock ≤ 700 →
      (loop_body r3 (loop_body r2 (loop_body r1 s).pressed_at_ms).pressed_at_ms).trace =
        [Effect.is_brightness_zero (is_brightness_zero r3.backlight),
         Effect.systemctl_start
           (if is_brightness_zero r3.backlight = true then "os-wake.service"
            else "os-screenoff.service")
           (systemctl_start r3.proc1)]) := by
  have e : loop_body r3 (loop_body r2 (loop_body r1 s).pressed_at_ms).pressed_at_ms =
      { pressed_at_ms := -1
        trace := dispatch (monotonic_ms r3.clock - monotonic_ms r2.clock) r3
        brk := false } := by
    rw [loop_body_press h1, loop_body_press h2, loop_body_release h3 (monotonic_ms_nonneg _)]
  refine ⟨loop_body_press h2 s, e, ?_⟩
  intro hd
  rw [e, dispatch_short r3 hd]

/-- Scenario of C5: presses at 0 ms and 1200 ms, release at 1600 ms, lit
screen: a 400 ms short press (`os-screenoff.service`), not a long press. -/
theorem C5_last_press_wins_witness :
    1500 ≤ monotonic_ms (key_round KEY_POWER 0 ⟨1, 600000000⟩ backlight_255).clock -
      monotonic_ms (key_round KEY_POWER 1 ⟨0, 0⟩ none).clock ∧
    (loop_body (key_round KEY_POWER 0 ⟨1, 600000000⟩ backlight_255)
      (loop_body (key_round KEY_POWER 1 ⟨1, 200000000⟩ none)
        (loop_body (key_round KEY_POWER 1 ⟨0, 0⟩ none) (-1)).pressed_at_ms).pressed_at_ms).trace =
      [Effect.is_brightness_zero false, Effect.systemctl_start "os-screenoff.service" 0] :=
  ⟨by decide,
    (C5_last_press_wins (key_round KEY_POWER 1 ⟨0, 0⟩ none)
      (key_round KEY_POWER 1 ⟨1, 200000000⟩ none)
      (key_round KEY_POWER 0 ⟨1, 600000000⟩ backlight_255) (-1)
      (by decide) (by decide) (by decide)).2.2 (by decide)⟩

/-- C10 (inputs that are not a power-key press or release). In every state `s`,
a loop iteration whose read would block, or reports a resync (whatever the
sync backlog holds), or delivers an event whose type is not `EV_KEY`, or an
`EV_KEY` event whose code is not a power-class key, or a power-class key event
whose value is neither 1 nor 0 (autorepeat is 2), leaves the state `s`, stays
in the loop, starts no unit and does not query the brightness oracle: the
only effect is the bounded `poll` of the would-block case. -/
theorem C10_other_inputs_are_noops (r : Round) (s : Int)
    (h : r.rc = -EAGAIN ∨ r.rc = LIBEVDEV_READ_STATUS_SYNC ∨
      (0 ≤ r.rc ∧ (r.ev.type ≠ EV_KEY ∨ is_power_key_code r.ev.code = false ∨
        (r.ev.value ≠ 1 ∧ r.ev.value ≠ 0)))) :
    loop_body r s =
      { pressed_at_ms := s
        trace := if r.rc = -EAGAIN then [Effect.poll 250] else []
        brk := false } ∧
    (∀ (u : String) (ret : Int), Effect.systemctl_start u ret ∉ (loop_body r s).trace) ∧
    (∀ b : Bool, Effect.is_brightness_zero b ∉ (loop_body r s).trace) := by
  have key : loop_body r s =
      { pressed_at_ms := s
        trace := if r.rc = -EAGAIN then [Effect.poll 250] else []
        brk := false } := by
    rcases h with h | h | ⟨h0, h⟩
    · simp [loop_body, h]
    · simp [loop_body, h, LIBEVDEV_READ_STATUS_SYNC, EAGAIN]
    · have hna : r.rc ≠ -EAGAIN := by
        intro hc; rw [hc] at h0; simp [EAGAIN] at h0
      have hnl : ¬ r.rc < 0 := not_lt.2 h0
      by_cases hsync : r.rc = LIBEVDEV_READ_STATUS_SYNC
      · simp [loop_body, hsync, LIBEVDEV_READ_STATUS_SYNC, EAGAIN]
      · rcases h with h | h | ⟨h1, h2⟩
        · simp [loop_body, hna, hnl, hsync, h]
        · simp [loop_body, hna, hnl, hsync, h]
        · by_cases ht : r.ev.type = EV_KEY <;> by_cases hc : is_power_key_code r.ev.code = true <;>
            simp [loop_body, hna, hnl, hsync, h1, h2, ht, hc]
  refine ⟨key, ?_, ?_⟩
  · intro u ret
    rw [key]
    by_cases ha : r.rc = -EAGAIN <;> simp [ha]
  · intro b
    rw [key]
    by_cases ha : r.rc = -EAGAIN <;> simp [ha]

/-- Scenario of C10: an autorepeat event (value 2) of the held power key in
state `Pressed(300)` keeps the anchor 300. -/
theorem C10_other_inputs_are_noops_witness :
    loop_body (key_round KEY_POWER 2 ⟨1, 0⟩ backlight_255) 300 =
      { pressed_at_ms := 300, trace := [], brk := false } :=
  (C10_other_inputs_are_noops (key_round KEY_POWER 2 ⟨1, 0⟩ backlight_255) 300
    (Or.inr (Or.inr ⟨by decide, Or.inr (Or.inr ⟨by decide, by decide⟩)⟩))).1

/-! ## The brightness oracle -/

/-- A failed read answers false: `popen` failed, or the pipe gave no line. -/
theorem is_brightness_zero_read_failure :
    is_brightness_zero none = false ∧ is_brightness_zero (some []) = false := by
  constructor <;> rfl

/-- When a line was read, the answer is whether `strtol` returns 0 on it. -/
theorem is_brightness_zero_line (c : Char) (cs : List Char) :
    is_brightness_zero (some (c :: cs)) = decide (strtol (fgets_line 63 (c :: cs)) = 0) := by
  simp [is_brightness_zero, fgets]

/-- C7 (code differs). A first line that is not a number (`n/a`) is read by
`fgets`, `strtol` returns 0 on it, and `is_brightness_zero` answers true; a
400 ms short press in that round then starts `os-wake.service`, not
`os-screenoff.service`. -/
theorem C7_non_numeric_line_reads_as_zero :
    fgets 64 ['n', '/', 'a', Char.ofNat 10] = some ['n', '/', 'a', Char.ofNat 10] ∧
    strtol ['n', '/', 'a', Char.ofNat 10] = 0 ∧
    is_brightness_zero backlight_not_a_number = true ∧
    loop_body (key_round KEY_POWER 0 ⟨0, 400000000⟩ backlight_not_a_number) 0 =
      { pressed_at_ms := -1
        trace :=
          [Effect.is_brightness_zero true, Effect.systemctl_start "os-wake.service" 0]
        brk := false } := by
  refine ⟨by decide, by decide, by decide, ?_⟩
  rw [loop_body_release (by decide) (by decide), dispatch_short _ (by decide)]
  rfl

/-! ## Exit status -/

/-- No matching device: exit status 1. -/
theorem main_not_found (dm : List Char) (dg : Bool) (argv : List (List Char))
    (devs : Nat → Candidate) (attach : Int) (rounds : List Round)
    (h : open_matching_input devs
      (some (if 2 ≤ argv.length then argv.getD 1 dm else dm))
      (if 3 ≤ argv.length ∧ argv.getD 2 [] = ['-', '-', 'n', 'o', 'g', 'r', 'a', 'b'] then false
        else dg) < 0) :
    main dm dg argv devs attach rounds = some (1, []) := by
  unfold main
  simp only []
  rw [if_pos h]

/-- Decode setup failure on the descriptor found: exit status 1. -/
theorem main_attach_failure (dm : List Char) (dg : Bool) (argv : List (List Char))
    (devs : Nat → Candidate) (attach : Int) (rounds : List Round)
    (hfd : 0 ≤ open_matching_input devs
      (some (if 2 ≤ argv.length then argv.getD 1 dm else dm))
      (if 3 ≤ argv.length ∧ argv.getD 2 [] = ['-', '-', 'n', 'o', 'g', 'r', 'a', 'b'] then false
        else dg))
    (hat : attach < 0) :
    main dm dg argv devs attach rounds = some (1, []) := by
  unfold main
  simp only []
  rw [if_neg (not_lt.2 hfd), if_pos hat]

/-- Whenever the loop of `main` is entered and ends, by a stop signal or by a
read error alike, the exit status is 0. -/
theorem main_status_after_loop (dm : List Char) (dg : Bool) (argv : List (List Char))
    (devs : Nat → Candidate) (attach : Int) (rounds : List Round) (t : List Effect)
    (hfd : 0 ≤ open_matching_input devs
      (some (if 2 ≤ argv.length then argv.getD 1 dm else dm))
      (if 3 ≤ argv.length ∧ argv.getD 2 [] = ['-', '-', 'n', 'o', 'g', 'r', 'a', 'b'] then false
        else dg))
    (hat : 0 ≤ attach) (hl : main_loop rounds (-1) = some t) :
    main dm dg argv devs attach rounds = some (0, t) := by
  unfold main
  simp only []
  rw [if_neg (not_lt.2 hfd), if_neg (not_lt.2 hat), hl]
  rfl

/-- C6 (code differs). With a matching device, a successful decode setup and a
first read that fails with `-ENODEV`, the loop ends on the read error and the
exit status of `main` is 0; a stop signal in the same place gives the same
status 0. -/
theorem C6_read_error_exit_status :
    read_error_round.g_stop = false ∧ read_error_round.rc < 0 ∧
    read_error_round.rc ≠ -EAGAIN ∧
    main ['P', 'o', 'w', 'e', 'r'] true [['p', 'o', 'w', 'e', 'r', 'k', 'e', 'y', 'd']]
        (one_button 4 0) 0 [read_error_round] =
      some (0, [Effect.stderr_read_error (-19)]) ∧
    main ['P', 'o', 'w', 'e', 'r'] true [['p', 'o', 'w', 'e', 'r', 'k', 'e', 'y', 'd']]
        (one_button 4 0) 0 [{ read_error_round with g_stop := true }] =
      some (0, []) := by
  refine ⟨by decide, by decide, by decide, ?_, ?_⟩
  · exact main_status_after_loop _ _ _ _ _ _ _ (by decide) (by decide) (by decide)
  · exact main_status_after_loop _ _ _ _ _ _ _ (by decide) (by decide) (by decide)

/-! ## The device matcher -/

/-- The model `strstr` finds the needle exactly when it occurs in the haystack. -/
theorem strstr_isSome_iff (h n : List Char) : (strstr h n).isSome = true ↔ n <:+: h := by
  induction h with
  | nil =>
    unfold strstr
    by_cases hn : n = [] <;> simp [hn]
  | cons c cs ih =>
    unfold strstr
    rw [List.infix_cons_iff]
    by_cases hp : n.isPrefixOf (c :: cs) = true
    · rw [if_pos hp]
      simp [List.isPrefixOf_iff_prefix.1 hp]
    · rw [if_neg hp, ih]
      have : ¬ n <+: c :: cs := fun hc => hp (List.isPrefixOf_iff_prefix.2 hc)
      simp [this]

/-- One step of the scan: the acceptance test of lines 70-92 is `qualifies`. -/
theorem open_matching_input_from_succ (devs : Nat → Candidate) (d : Option (List Char))
    (g : Bool) (n i : Nat) :
    open_matching_input_from devs d g (n + 1) i =
      if qualifies d (devs i) then returned_descriptor (devs i) g
      else open_matching_input_from devs d g n (i + 1) := by
  conv_lhs => unfold open_matching_input_from
  simp only []
  by_cases h1 : (devs i).open_rdonly < 0
  · rw [if_pos h1, if_neg]
    intro hq; exact absurd hq.1 (not_le.2 h1)
  rw [if_neg h1]
  by_cases h2 : (devs i).new_from_fd < 0
  · rw [if_pos h2, if_neg]
    intro hq; exact absurd hq.2.1 (not_le.2 h2)
  rw [if_neg h2]
  have e1 := not_lt.1 h1
  have e2 := not_lt.1 h2
  have hpow : ((devs i).has_event_code EV_KEY KEY_POWER ||
      (devs i).has_event_code EV_KEY KEY_SLEEP ||
      (devs i).has_event_code EV_KEY KEY_WAKEUP) = true ↔
      ((devs i).has_event_code EV_KEY KEY_POWER = true ∨
        (devs i).has_event_code EV_KEY KEY_SLEEP = true ∨
        (devs i).has_event_code EV_KEY KEY_WAKEUP = true) := by
    simp only [Bool.or_eq_true, or_assoc]
  unfold qualifies returned_descriptor
  by_cases hk' : ((devs i).has_event_code EV_KEY KEY_POWER = true ∨
        (devs i).has_event_code EV_KEY KEY_SLEEP = true ∨
        (devs i).has_event_code EV_KEY KEY_WAKEUP = true)
  · have hk := hpow.2 hk'
    cases d with
    | none => cases g <;> simp [e1, e2, hk, hk']
    | some d =>
      by_cases hd : d = []
      · cases g <;> simp [e1, e2, hk, hk', hd]
      · rcases Option.eq_none_or_eq_some (devs i).name with hn | ⟨nm, hn⟩
        · simp [e1, e2, hk, hk', hd, hn]
        · by_cases hs : (strstr nm d).isSome = true
          · have hi := (strstr_isSome_iff nm d).1 hs
            cases g <;> simp [e1, e2, hk, hk', hd, hn, hs, hi]
          · have hi : ¬ d <:+: nm := fun hc => hs ((strstr_isSome_iff nm d).2 hc)
            simp [e1, e2, hk, hk', hd, hn, hs, hi]
  · have hk : ¬ ((devs i).has_event_code EV_KEY KEY_POWER ||
        (devs i).has_event_code EV_KEY KEY_SLEEP ||
        (devs i).has_event_code EV_KEY KEY_WAKEUP) = true := fun hc => hk' (hpow.1 hc)
    simp [hk, hk']

/-- A scan over candidates none of which qualifies returns -1. -/
theorem scan_none (devs : Nat → Candidate) (d : Option (List Char)) (g : Bool) :
    ∀ n i : Nat, (∀ j, i ≤ j → j < i + n → ¬ qualifies d (devs j)) →
      open_matching_input_from devs d g n i = -1 := by
  intro n
  induction n with
  | zero => intro i _; rfl
  | succ n ih =>
    intro i h
    rw [open_matching_input_from_succ, if_neg (h i le_rfl (by omega))]
    exact ih (i + 1) (fun j h1 h2 => h j (by omega) (by omega))

/-- A scan that reaches a first qualifying candidate `k` returns its descriptor. -/
theorem scan_first (devs : Nat → Candidate) (d : Option (List Char)) (g : Bool) (k : Nat)
    (hk : qualifies d (devs k)) :
    ∀ n i : Nat, i ≤ k → k < i + n → (∀ j, i ≤ j → j < k → ¬ qualifies d (devs j)) →
      open_matching_input_from devs d g n i = returned_descriptor (devs k) g := by
  intro n
  induction n with
  | zero => intro i h1 h2; omega
  | succ n ih =>
    intro i h1 h2 h
    rw [open_matching_input_from_succ]
    rcases Nat.eq_or_lt_of_le h1 with he | hlt
    · subst he
      rw [if_pos hk]
    · rw [if_neg (h i le_rfl hlt)]
      exact ih (i + 1) (by omega) (by omega) (fun j h3 h4 => h j (by omega) h4)

/-- The outcome of the grab `ioctl` never reaches the result of a scan. -/
theorem scan_ignores_grab (devs : Nat → Candidate) (d : Option (List Char)) (g : Bool)
    (grab : Nat → Int) :
    ∀ n i : Nat,
      open_matching_input_from (fun j => { devs j with eviocgrab := grab j }) d g n i =
        open_matching_input_from devs d g n i := by
  intro n
  induction n with
  | zero => intro i; rfl
  | succ n ih =>
    intro i
    rw [open_matching_input_from_succ, open_matching_input_from_succ, ih (i + 1)]
    rfl

/-- C8 as stated fails for `try_grab = true`: in this system `event3` is the
lowest-index candidate that qualifies for the filter `Power` and `event5`
qualifies too, but the read-write reopen of `event3` fails, and
`open_matching_input` returns -1 (NotFound) instead of a handle to `event3`;
`event5` is not tried. -/
theorem C8_no_handle_counterexample :
    qualifies filter_Power (five_nodes_reopen_fails 3) ∧
    (∀ j : Nat, j < 3 → ¬ qualifies filter_Power (five_nodes_reopen_fails j)) ∧
    qualifies filter_Power (five_nodes_reopen_fails 5) ∧
    0 ≤ (five_nodes_reopen_fails 5).open_rdwr ∧
    open_matching_input five_nodes_reopen_fails filter_Power true = -1 := by
  refine ⟨by decide, by decide, by decide, by decide, by decide⟩

/-- C8, amended (device matcher ordering). For every system of device nodes,
filter and `try_grab`: if candidate `i < 64` qualifies and no candidate of
lower index does, whether those fail to open, fail to probe, miss the name or
miss the keys, and whatever later candidates do, the scan ends at candidate
`i` and `open_matching_input` returns the descriptor obtained for it: the
read-only descriptor without `try_grab`, the result of its read-write reopen
with `try_grab`.  That descriptor is non-negative, a handle to candidate `i`,
when `try_grab` is off or the reopen succeeds; when the reopen fails the
result is the negative value of that `open`.  If no candidate among the 64
qualifies the result is -1. -/
theorem C8_device_matcher_ordering (devs : Nat → Candidate) (name_substr : Option (List Char))
    (try_grab : Bool) :
    (∀ i : Nat, i < 64 → qualifies name_substr (devs i) →
      (∀ j : Nat, j < i → ¬ qualifies name_substr (devs j)) →
        open_matching_input devs name_substr try_grab =
            (if try_grab = true then (devs i).open_rdwr else (devs i).open_rdonly) ∧
          (try_grab = false ∨ 0 ≤ (devs i).open_rdwr →
            0 ≤ open_matching_input devs name_substr try_grab) ∧
          (try_grab = true → (devs i).open_rdwr < 0 →
            open_matching_input devs name_substr try_grab < 0)) ∧
    ((∀ i : Nat, i < 64 → ¬ qualifies name_substr (devs i)) →
      open_matching_input devs name_substr try_grab = -1) := by
  constructor
  · intro i hi hq hfirst
    have e : open_matching_input devs name_substr try_grab =
        (if try_grab = true then (devs i).open_rdwr else (devs i).open_rdonly) :=
      scan_first devs name_substr try_grab i hq 64 0 (Nat.zero_le i) (by omega)
        (fun j _ h => hfirst j h)
    refine ⟨e, ?_, ?_⟩
    · intro hg
      rw [e]
      cases try_grab with
      | false => exact hq.1
      | true =>
        rcases hg with hg | hg
        · exact absurd hg (by decide)
        · exact hg
    · intro hg hneg
      rw [e, if_pos hg]
      exact hneg
  · intro h
    exact scan_none devs name_substr try_grab 64 0 (fun j _ h2 => h j (by omega))

/-- Scenario of C8: among five device nodes `event3` is the first that
qualifies for the filter `Power`; `event5` qualifies too and is not chosen,
neither without `try_grab` (descriptor 12) nor with it (reopen descriptor 13);
no node qualifies for the filter `x`. -/
theorem C8_device_matcher_ordering_witness :
    qualifies filter_Power (five_nodes 3) ∧ qualifies filter_Power (five_nodes 5) ∧
    (∀ j : Nat, j < 3 → ¬ qualifies filter_Power (five_nodes j)) ∧
    open_matching_input five_nodes filter_Power false = 12 ∧
    open_matching_input five_nodes filter_Power true = 13 ∧
    0 ≤ open_matching_input five_nodes filter_Power true ∧
    (∀ i : Nat, i < 64 → ¬ qualifies (some ['x']) (five_nodes i)) ∧
    open_matching_input five_nodes (some ['x']) false = -1 :=
  ⟨by decide, by decide, by decide,
    ((C8_device_matcher_ordering five_nodes filter_Power false).1 3 (by decide) (by decide)
      (by decide)).1,
    ((C8_device_matcher_ordering five_nodes filter_Power true).1 3 (by decide) (by decide)
      (by decide)).1,
    ((C8_device_matcher_ordering five_nodes filter_Power true).1 3 (by decide) (by decide)
      (by decide)).2.1 (Or.inr (by decide)),
    by decide,
    (C8_device_matcher_ordering five_nodes (some ['x']) false).2 (by decide)⟩

/-- C9 as stated fails: the power button at `event0` qualifies for the filter
`Power` and is returned as descriptor 3 without `try_grab`, but when its
read-write reopen fails (`open` returns -1) `open_matching_input` with
`try_grab` returns -1, which `main` takes for "no matching device". -/
theorem C9_reopen_failure_counterexample :
    qualifies filter_Power (one_button (-1) (-1) 0) ∧
    open_matching_input (one_button (-1) (-1)) filter_Power false = 3 ∧
    open_matching_input (one_button (-1) (-1)) filter_Power true = -1 ∧
    main ['P', 'o', 'w', 'e', 'r'] true [['p', 'o', 'w', 'e', 'r', 'k', 'e', 'y', 'd']]
      (one_button (-1) (-1)) 0 [] = some (1, []) := by
  refine ⟨by decide, by decide, by decide, ?_⟩
  exact main_not_found _ _ _ _ _ _ (by decide)

/-- C9, amended (exclusive access is best-effort once the device is reopened).
If candidate `i < 64` is the first that qualifies and its read-write reopen
succeeds, `open_matching_input` with `try_grab` returns the non-negative
descriptor of that reopen, and without `try_grab` it returns a non-negative
descriptor too; the outcome of the grab `ioctl` never changes the returned
value; and if no candidate qualifies both calls return -1. -/
theorem C9_grab_is_best_effort (devs : Nat → Candidate) (name_substr : Option (List Char)) :
    (∀ i : Nat, i < 64 → qualifies name_substr (devs i) →
      (∀ j : Nat, j < i → ¬ qualifies name_substr (devs j)) → 0 ≤ (devs i).open_rdwr →
        open_matching_input devs name_substr true = (devs i).open_rdwr ∧
          0 ≤ open_matching_input devs name_substr true ∧
          0 ≤ open_matching_input devs name_substr false) ∧
    (∀ grab : Nat → Int,
      open_matching_input (fun j => { devs j with eviocgrab := grab j }) name_substr true =
        open_matching_input devs name_substr true) ∧
    ((∀ i : Nat, i < 64 → ¬ qualifies name_substr (devs i)) →
      open_matching_input devs name_substr true = -1 ∧
        open_matching_input devs name_substr false = -1) := by
  refine ⟨?_, ?_, ?_⟩
  · intro i hi hq hfirst hrw
    have et : open_matching_input devs name_substr true = (devs i).open_rdwr :=
      scan_first devs name_substr true i hq 64 0 (Nat.zero_le i) (by omega)
        (fun j _ h => hfirst j h)
    have ef : open_matching_input devs name_substr false = (devs i).open_rdonly :=
      scan_first devs name_substr false i hq 64 0 (Nat.zero_le i) (by omega)
        (fun j _ h => hfirst j h)
    refine ⟨et, ?_, ?_⟩
    · rw [et]; exact hrw
    · rw [ef]; exact hq.1
  · intro grab
    exact scan_ignores_grab devs name_substr true grab 64 0
  · intro h
    exact ⟨scan_none devs name_substr true 64 0 (fun j _ h2 => h j (by omega)),
      scan_none devs name_substr false 64 0 (fun j _ h2 => h j (by omega))⟩

/-- Scenario of C9: the power button reopens as descriptor 4 and the grab
fails with -1; descriptor 4 is returned all the same. -/
theorem C9_grab_is_best_effort_witness :
    qualifies filter_Power (one_button 4 (-1) 0) ∧ (one_button 4 (-1) 0).eviocgrab = -1 ∧
    open_matching_input (one_button 4 (-1)) filter_Power true = 4 ∧
    0 ≤ open_matching_input (one_button 4 (-1)) filter_Power false :=
  ⟨by decide, by decide,
    ((C9_grab_is_best_effort (one_button 4 (-1)) filter_Power).1 0 (by decide) (by decide)
      (by decide) (by decide)).1,
    ((C9_grab_is_best_effort (one_button 4 (-1)) filter_Power).1 0 (by decide) (by decide)
      (by decide) (by decide)).2.2⟩

end Powerkeyd
